import Mathlib

/-!
Shallow embedding of the Runlayer-style OAuth mock server
(`oauth_runlayer_mock.py`): an in-memory client registry, a grant store
mapping authorization codes to grant records, discovery-metadata documents,
and the five HTTP handlers (`register_client`, `authorize`, `token`,
`mcp_endpoint`, metadata endpoints).  Python dicts become association lists
with overwrite-insert and first-occurrence pop; the outputs of
`secrets.token_hex` become explicit string parameters; HTTP responses become
inductive result types.
-/

namespace OAuthMock

/-- Python dict lookup `d.get(k)` / `k in d` on a string-keyed assoc list. -/
def dictLookup (k : String) : List (String × α) → Option α
  | [] => none
  | (k', v) :: rest => if k' = k then some v else dictLookup k rest

/-- Python dict assignment `d[k] = v`: overwrite in place, else append. -/
def dictInsert (k : String) (v : α) : List (String × α) → List (String × α)
  | [] => [(k, v)]
  | (k', v') :: rest =>
      if k' = k then (k, v) :: rest else (k', v') :: dictInsert k v rest

/-- Python dict removal `d.pop(k)`: drop the (unique) entry keyed `k`. -/
def dictPop (k : String) : List (String × α) → List (String × α)
  | [] => []
  | (k', v) :: rest => if k' = k then rest else (k', v) :: dictPop k rest

/-- The keys of an assoc list. -/
def keys (l : List (String × α)) : List String := l.map Prod.fst

/-- A registered OAuth client, as stored in `registered_clients`. -/
structure RegisteredClient where
  client_id : String
  client_secret : String
  client_name : String
  redirect_uris : List String
deriving DecidableEq, Repr

/-- The record stored in `issued_tokens` under an authorization code. -/
structure IssuedGrant where
  client_id : String
  redirect_uri : String
  resource : String
  code_challenge : Option String
deriving DecidableEq, Repr

/-- The two module-level mutable dicts of the mock server. -/
structure ServerState where
  registered_clients : List (String × RegisteredClient)
  issued_tokens : List (String × IssuedGrant)
deriving DecidableEq, Repr

/-- The server starts with both dicts empty. -/
def initState : ServerState := ⟨[], []⟩

/-- RFC 9728 protected-resource metadata document. -/
structure ProtectedResourceMetadata where
  resource : String
  authorization_servers : List String
  scopes_supported : List String
  bearer_methods_supported : List String
deriving DecidableEq, Repr

/-- Handler for `/.well-known/oauth-protected-resource`. -/
def protected_resource_metadata (base_url : String) : ProtectedResourceMetadata :=
  { resource := base_url ++ "/mcp"
    authorization_servers := [base_url]
    scopes_supported := ["read", "write"]
    bearer_methods_supported := ["header"] }

/-- RFC 8414 authorization-server metadata document. -/
structure AuthorizationServerMetadata where
  issuer : String
  authorization_endpoint : String
  token_endpoint : String
  registration_endpoint : String
  response_types_supported : List String
  code_challenge_methods_supported : List String
  grant_types_supported : List String
  token_endpoint_auth_methods_supported : List String
deriving DecidableEq, Repr

/-- Handler for `/.well-known/oauth-authorization-server`. -/
def authorization_server_metadata (base_url : String) : AuthorizationServerMetadata :=
  { issuer := base_url
    authorization_endpoint := base_url ++ "/authorize"
    token_endpoint := base_url ++ "/token"
    registration_endpoint := base_url ++ "/register"
    response_types_supported := ["code"]
    code_challenge_methods_supported := ["S256"]
    grant_types_supported := ["authorization_code", "refresh_token"]
    token_endpoint_auth_methods_supported := ["none", "client_secret_post"] }

/-- JSON body of a `/register` request: `body.get` distinguishes present
from absent fields, so both are `Option`s. -/
structure RegisterBody where
  client_name : Option String
  redirect_uris : Option (List String)
deriving DecidableEq, Repr

/-- Handler for POST `/register`.  `tok1`/`tok2` are the outputs of the two
`secrets.token_hex` calls.  Returns the JSON response record and the updated
`registered_clients` dict. -/
def register_client (body : RegisterBody) (tok1 tok2 : String)
    (registered_clients : List (String × RegisteredClient)) :
    RegisteredClient × List (String × RegisteredClient) :=
  let client_name := body.client_name.getD "unknown"
  let client_id := "mock-client-" ++ tok1
  let client_secret := "mock-secret-" ++ tok2
  let record : RegisteredClient :=
    { client_id := client_id
      client_secret := client_secret
      client_name := client_name
      redirect_uris := body.redirect_uris.getD [] }
  (record, dictInsert client_id record registered_clients)

/-- One character of `urllib.parse.quote_plus`: alphanumerics and `_.-~`
pass through, a space becomes `+`, anything else is percent-encoded
bytewise over its UTF-8 encoding with uppercase hex digits. -/
def hexUpper (n : Nat) : Char :=
  if n < 10 then Char.ofNat (48 + n) else Char.ofNat (55 + n)

/-- Whether a byte is in `quote_plus`'s always-safe set. -/
def isUrlSafeByte (b : UInt8) : Bool :=
  (65 ≤ b.toNat && b.toNat ≤ 90) || (97 ≤ b.toNat && b.toNat ≤ 122) ||
  (48 ≤ b.toNat && b.toNat ≤ 57) ||
  b.toNat = 95 || b.toNat = 46 || b.toNat = 45 || b.toNat = 126

/-- Percent-encode one byte (or pass it through / map space to `+`). -/
def quoteByte (b : UInt8) : String :=
  if isUrlSafeByte b then String.singleton (Char.ofNat b.toNat)
  else if b.toNat = 32 then "+"
  else "%" ++ String.singleton (hexUpper (b.toNat / 16)) ++
    String.singleton (hexUpper (b.toNat % 16))

/-- `urllib.parse.quote_plus` on a whole string. -/
def quotePlus (s : String) : String :=
  String.join (s.data.map fun c => String.join ((String.utf8EncodeChar c).map quoteByte))

/-- `urllib.parse.urlencode` on an ordered list of key/value pairs. -/
def urlencode (ps : List (String × String)) : String :=
  String.intercalate "&" (ps.map fun p => quotePlus p.1 ++ "=" ++ quotePlus p.2)

/-- Query parameters of a GET `/authorize` request.  The four `Query(...)`
parameters are required: FastAPI rejects the request with a 422 validation
error when any is absent, so absence is modelled with `none`.
`response_type` defaults to `"code"`, the PKCE fields default to `None`. -/
structure AuthorizeParams where
  client_id : Option String
  redirect_uri : Option String
  state : Option String
  response_type : String
  code_challenge : Option String
  code_challenge_method : Option String
  resource : Option String
deriving DecidableEq, Repr

/-- Responses of the `/authorize` handler. -/
inductive AuthorizeResponse
  | validationError (status : Nat)
  | redirect (status : Nat) (url : String)
deriving DecidableEq, Repr

/-- Handler for GET `/authorize`.  `tok` is the output of
`secrets.token_hex(16)`.  If any required query parameter is missing,
FastAPI returns 422 before the handler body runs; otherwise the handler
mints a code, stores the grant and redirects. -/
def authorize (p : AuthorizeParams) (tok : String)
    (issued_tokens : List (String × IssuedGrant)) :
    AuthorizeResponse × List (String × IssuedGrant) :=
  match p.client_id, p.redirect_uri, p.state, p.resource with
  | some client_id, some redirect_uri, some state, some resource =>
      let auth_code := "mock-auth-code-" ++ tok
      let grant : IssuedGrant :=
        { client_id := client_id
          redirect_uri := redirect_uri
          resource := resource
          code_challenge := p.code_challenge }
      let redirect_params := urlencode [("code", auth_code), ("state", state)]
      (AuthorizeResponse.redirect 302 (redirect_uri ++ "?" ++ redirect_params),
        dictInsert auth_code grant issued_tokens)
  | _, _, _, _ => (AuthorizeResponse.validationError 422, issued_tokens)

/-- The form body of a POST `/token` request; `form.get` yields `None` for
absent fields. -/
structure TokenForm where
  grant_type : Option String
  code : Option String
deriving DecidableEq, Repr

/-- A successful token response body. -/
structure TokenSet where
  access_token : String
  token_type : String
  expires_in : Nat
  refresh_token : String
deriving DecidableEq, Repr

/-- Responses of the `/token` handler. -/
inductive TokenResponse
  | ok (t : TokenSet)
  | httpError (status : Nat) (detail : String)
deriving DecidableEq, Repr

/-- Python `str(x)` on the value of `form.get("grant_type")`. -/
def pyStrOpt : Option String → String
  | none => "None"
  | some s => s

/-- Handler for POST `/token`.  `atk`/`rtk` are the outputs of the two
`secrets.token_hex(16)` calls on the success path.  Mirrors the Python
`if not code or code not in issued_tokens` check: a missing or empty
(falsy) `code`, or one absent from the store, yields HTTP 400. -/
def token (form : TokenForm) (atk rtk : String)
    (issued_tokens : List (String × IssuedGrant)) :
    TokenResponse × List (String × IssuedGrant) :=
  match form.grant_type with
  | some "authorization_code" =>
      match form.code with
      | some c =>
          if c ≠ "" ∧ (dictLookup c issued_tokens).isSome = true then
            (TokenResponse.ok
              { access_token := "mock-access-token-" ++ atk
                token_type := "Bearer"
                expires_in := 3600
                refresh_token := "mock-refresh-token-" ++ rtk },
              dictPop c issued_tokens)
          else (TokenResponse.httpError 400 "Invalid authorization code", issued_tokens)
      | none => (TokenResponse.httpError 400 "Invalid authorization code", issued_tokens)
  | some "refresh_token" =>
      (TokenResponse.ok
        { access_token := "mock-access-token-" ++ atk
          token_type := "Bearer"
          expires_in := 3600
          refresh_token := "mock-refresh-token-" ++ rtk },
        issued_tokens)
  | gt => (TokenResponse.httpError 400 ("Unsupported grant_type: " ++ pyStrOpt gt), issued_tokens)

/-- Responses of the `/mcp` handler. -/
inductive McpResponse
  | unauthorized (status : Nat) (error message : String) (wwwAuthenticate : String)
  | success (status : Nat) (jsonrpc : String) (id : Nat) (protocolVersion : String)
      (serverName serverVersion : String)
deriving DecidableEq, Repr

/-- Python `s.startswith(pre)`: an exact, case-sensitive prefix test. -/
def startswith (s pre : String) : Bool :=
  pre.data.isPrefixOf s.data

/-- The `WWW-Authenticate` challenge value built by the `/mcp` handler. -/
def bearerChallenge (base_url : String) : String :=
  "Bearer error=\"invalid_token\", resource_metadata=\"" ++ base_url ++
    "/.well-known/oauth-protected-resource\""

/-- Handler for `/mcp`.  `request.headers.get("Authorization", "")` turns an
absent header into the empty string before the prefix test. -/
def mcp_endpoint (base_url : String) (authorizationHeader : Option String) : McpResponse :=
  let auth_header := authorizationHeader.getD ""
  if ¬ (startswith auth_header "Bearer " = true) then
    McpResponse.unauthorized 401 "unauthorized" "Authentication required"
      (bearerChallenge base_url)
  else
    McpResponse.success 200 "2.0" 1 "2024-11-05" "runlayer-mock" "1.0.0"

/-- One HTTP request processed against the server's mutable state:
each constructor is one handler call, with the `secrets.token_hex` outputs
chosen nondeterministically. -/
inductive Step : ServerState → ServerState → Prop
  | register (body : RegisterBody) (tok1 tok2 : String) (st : ServerState) :
      Step st { st with
        registered_clients := (register_client body tok1 tok2 st.registered_clients).2 }
  | authorize (p : AuthorizeParams) (tok : String) (st : ServerState) :
      Step st { st with issued_tokens := (authorize p tok st.issued_tokens).2 }
  | token (form : TokenForm) (atk rtk : String) (st : ServerState) :
      Step st { st with issued_tokens := (token form atk rtk st.issued_tokens).2 }

/-- States reachable from the fresh server by some sequence of requests. -/
def Reachable (st : ServerState) : Prop :=
  Relation.ReflTransGen Step initState st

/-! ### Association-list lemmas -/

theorem dictLookup_isSome_iff {α : Type} (k : String) (l : List (String × α)) :
    (dictLookup k l).isSome = true ↔ k ∈ keys l := by
  induction l with
  | nil => simp [dictLookup, keys]
  | cons p rest ih =>
      obtain ⟨k', v⟩ := p
      by_cases hk : k' = k
      · subst hk; simp [dictLookup, keys]
      · simp only [dictLookup, keys, List.map_cons, List.mem_cons, if_neg hk]
        simp only [keys] at ih
        rw [ih]
        constructor
        · exact Or.inr
        · rintro (h | h)
          · exact absurd h.symm hk
          · exact h

theorem dictLookup_eq_none_iff {α : Type} (k : String) (l : List (String × α)) :
    dictLookup k l = none ↔ k ∉ keys l := by
  rw [← dictLookup_isSome_iff k l]
  cases dictLookup k l <;> simp

theorem dictInsert_of_not_mem {α : Type} (k : String) (v : α) (l : List (String × α))
    (h : k ∉ keys l) : dictInsert k v l = l ++ [(k, v)] := by
  induction l with
  | nil => rfl
  | cons p rest ih =>
      obtain ⟨k', v'⟩ := p
      simp only [keys, List.map_cons, List.mem_cons] at h
      push_neg at h
      have hne : ¬ (k' = k) := fun hk => h.1 hk.symm
      simp only [dictInsert, if_neg hne, List.cons_append]
      exact congrArg _ (ih (by simpa [keys] using h.2))

theorem mem_dictInsert {α : Type} (p : String × α) (k : String) (v : α) :
    ∀ l : List (String × α), p ∈ dictInsert k v l → p = (k, v) ∨ p ∈ l := by
  intro l
  induction l with
  | nil => intro hp; simpa [dictInsert] using hp
  | cons q rest ih =>
      obtain ⟨k', v'⟩ := q
      intro hp
      by_cases hk : k' = k
      · subst hk
        simp only [dictInsert, eq_self_iff_true, if_true, List.mem_cons] at hp
        rcases hp with h | h
        · exact Or.inl h
        · exact Or.inr (List.mem_cons_of_mem _ h)
      · simp only [dictInsert, if_neg hk, List.mem_cons] at hp
        rcases hp with h | h
        · exact Or.inr (by simp [h])
        · rcases ih h with h' | h'
          · exact Or.inl h'
          · exact Or.inr (List.mem_cons_of_mem _ h')

theorem keys_dictInsert_of_mem {α : Type} (k : String) (v : α) (l : List (String × α))
    (h : k ∈ keys l) : keys (dictInsert k v l) = keys l := by
  induction l with
  | nil => simp [keys] at h
  | cons p rest ih =>
      obtain ⟨k', v'⟩ := p
      by_cases hk : k' = k
      · subst hk; simp [dictInsert, keys]
      · simp only [keys, List.map_cons, List.mem_cons] at h
        rcases h with h | h
        · exact absurd h.symm hk
        · simp only [dictInsert, if_neg hk, keys, List.map_cons]
          rw [show List.map Prod.fst (dictInsert k v rest) = keys (dictInsert k v rest) from rfl,
            ih h]
          rfl

theorem nodup_keys_dictInsert {α : Type} (k : String) (v : α) (l : List (String × α))
    (h : (keys l).Nodup) : (keys (dictInsert k v l)).Nodup := by
  by_cases hk : k ∈ keys l
  · rw [keys_dictInsert_of_mem k v l hk]; exact h
  · rw [dictInsert_of_not_mem k v l hk]
    simp only [keys, List.map_append, List.map_cons, List.map_nil]
    rw [List.nodup_append]
    exact ⟨h, List.nodup_singleton k, by simpa [keys, List.disjoint_singleton] using hk⟩

theorem dictPop_sublist {α : Type} (k : String) (l : List (String × α)) :
    List.Sublist (dictPop k l) l := by
  induction l with
  | nil => exact List.Sublist.refl []
  | cons p rest ih =>
      obtain ⟨k', v⟩ := p
      by_cases hk : k' = k
      · simp only [dictPop, if_pos hk]
        exact List.sublist_cons_self (k', v) rest
      · simpa [dictPop, hk] using List.Sublist.cons₂ (k', v) ih

theorem mem_dictPop {α : Type} {p : String × α} {k : String} {l : List (String × α)}
    (hp : p ∈ dictPop k l) : p ∈ l :=
  (dictPop_sublist k l).subset hp

theorem nodup_keys_dictPop {α : Type} (k : String) (l : List (String × α))
    (h : (keys l).Nodup) : (keys (dictPop k l)).Nodup :=
  ((dictPop_sublist k l).map Prod.fst).nodup h

theorem not_mem_keys_dictPop {α : Type} (k : String) (l : List (String × α))
    (h : (keys l).Nodup) : k ∉ keys (dictPop k l) := by
  induction l with
  | nil => simp [dictPop, keys]
  | cons p rest ih =>
      obtain ⟨k', v⟩ := p
      simp only [keys, List.map_cons, List.nodup_cons] at h
      by_cases hk : k' = k
      · subst hk
        simp only [dictPop, if_pos rfl]
        exact h.1
      · simp only [dictPop, if_neg hk, keys, List.map_cons, List.mem_cons]
        push_neg
        exact ⟨fun he => hk he.symm, ih h.2⟩

/-! ### The grant-store invariant over reachable states -/

/-- Keys of the grant store are pairwise distinct (dict semantics) and every
stored code carries the `"mock-auth-code-"` marker the handler mints. -/
def GrantStoreInv (l : List (String × IssuedGrant)) : Prop :=
  (keys l).Nodup ∧ ∀ p ∈ l, startswith p.1 "mock-auth-code-" = true

theorem startswith_append (s t : String) : startswith (s ++ t) s = true := by
  have hdata : (s ++ t).data = s.data ++ t.data := rfl
  simp [startswith, hdata, List.isPrefixOf_iff_prefix]

theorem startswith_marker_ne_empty {c : String}
    (h : startswith c "mock-auth-code-" = true) : c ≠ "" := by
  intro hc
  subst hc
  exact absurd h (by decide)

theorem inv_authorize (p : AuthorizeParams) (tok : String)
    (l : List (String × IssuedGrant)) (h : GrantStoreInv l) :
    GrantStoreInv (authorize p tok l).2 := by
  rcases p with ⟨ci, ru, stt, rt, cc, ccm, res⟩
  cases ci <;> cases ru <;> cases stt <;> cases res <;>
    first
    | exact h
    | · refine ⟨nodup_keys_dictInsert _ _ _ h.1, ?_⟩
        intro q hq
        rcases mem_dictInsert q _ _ _ hq with hq' | hq'
        · rw [hq']
          exact startswith_append "mock-auth-code-" tok
        · exact h.2 q hq'

theorem inv_token (form : TokenForm) (atk rtk : String)
    (l : List (String × IssuedGrant)) (h : GrantStoreInv l) :
    GrantStoreInv (token form atk rtk l).2 := by
  rcases form with ⟨gt, code⟩
  simp only [token]
  split
  · split
    · split
      · exact ⟨nodup_keys_dictPop _ _ h.1, fun q hq => h.2 q (mem_dictPop hq)⟩
      · exact h
    · exact h
  · exact h
  · exact h

theorem step_inv {s1 s2 : ServerState} (hs : Step s1 s2)
    (h : GrantStoreInv s1.issued_tokens) : GrantStoreInv s2.issued_tokens := by
  cases hs with
  | register body tok1 tok2 st => exact h
  | authorize p tok st => exact inv_authorize _ _ _ h
  | token form atk rtk st => exact inv_token _ _ _ _ h

theorem reachable_inv (st : ServerState) (h : Reachable st) :
    GrantStoreInv st.issued_tokens := by
  induction h with
  | refl => exact ⟨List.nodup_nil, by intro p hp; simp [initState] at hp⟩
  | tail _ hstep ih => exact step_inv hstep ih

/-! ### Unfolding equations for the handlers -/

theorem token_auth_code_eq (c atk rtk : String) (l : List (String × IssuedGrant)) :
    token ⟨some "authorization_code", some c⟩ atk rtk l =
      if c ≠ "" ∧ (dictLookup c l).isSome = true then
        (TokenResponse.ok
          { access_token := "mock-access-token-" ++ atk, token_type := "Bearer",
            expires_in := 3600, refresh_token := "mock-refresh-token-" ++ rtk },
          dictPop c l)
      else (TokenResponse.httpError 400 "Invalid authorization code", l) := rfl

theorem token_refresh_eq (code : Option String) (atk rtk : String)
    (l : List (String × IssuedGrant)) :
    token ⟨some "refresh_token", code⟩ atk rtk l =
      (TokenResponse.ok
        { access_token := "mock-access-token-" ++ atk, token_type := "Bearer",
          expires_in := 3600, refresh_token := "mock-refresh-token-" ++ rtk },
        l) := rfl

theorem authorize_all_present_eq (a b s rt : String) (cc ccm : Option String)
    (r tok : String) (l : List (String × IssuedGrant)) :
    authorize ⟨some a, some b, some s, rt, cc, ccm, some r⟩ tok l =
      (AuthorizeResponse.redirect 302
        (b ++ "?" ++ urlencode [("code", "mock-auth-code-" ++ tok), ("state", s)]),
        dictInsert ("mock-auth-code-" ++ tok)
          { client_id := a, redirect_uri := b, resource := r, code_challenge := cc } l) := rfl

theorem append_left_cancel_str {s a b : String} (h : s ++ a = s ++ b) : a = b := by
  rcases a with ⟨la⟩
  rcases b with ⟨lb⟩
  have hd : s.data ++ la = s.data ++ lb := congrArg String.data h
  exact congrArg String.mk (List.append_cancel_left hd)

theorem authorize_resource_none_eq (p : AuthorizeParams) (tok : String)
    (l : List (String × IssuedGrant)) (h : p.resource = none) :
    authorize p tok l = (AuthorizeResponse.validationError 422, l) := by
  rcases p with ⟨ci, ru, stt, rt, cc, ccm, res⟩
  cases h
  cases ci <;> cases ru <;> cases stt <;> rfl

/-! ### Claim theorems -/

/-- C2: an authorization request without the `resource` query parameter is
rejected with the transport-layer 422 validation error before any business
logic: no redirect is issued, no code is minted, and the grant store is
returned unchanged (same size and contents). -/
theorem authorize_missing_resource_rejects (p : AuthorizeParams) (tok : String)
    (l : List (String × IssuedGrant)) (h : p.resource = none) :
    authorize p tok l = (AuthorizeResponse.validationError 422, l) :=
  authorize_resource_none_eq p tok l h

theorem authorize_missing_resource_rejects_witness :
    authorize ⟨some "client-a", some "https://cb", some "xyz", "code", none, none, none⟩
        "t" [] = (AuthorizeResponse.validationError 422, []) :=
  authorize_missing_resource_rejects
    ⟨some "client-a", some "https://cb", some "xyz", "code", none, none, none⟩ "t" [] rfl

/-- C3 counterexample: the claim that every grant stored at a reachable state
has a non-empty `resource` is false.  A request supplying `resource=` (the
parameter present but equal to the empty string) passes FastAPI's
required-parameter validation and mints a grant whose stored `resource` is
`""`; the resulting state is reachable in one step from the fresh server. -/
theorem grant_store_empty_resource_counterexample :
    Reachable ⟨[], [("mock-auth-code-t",
      { client_id := "client-a", redirect_uri := "https://cb", resource := "",
        code_challenge := none })]⟩ ∧
    ("mock-auth-code-t",
      ({ client_id := "client-a", redirect_uri := "https://cb", resource := "",
         code_challenge := none } : IssuedGrant)) ∈
      (⟨[], [("mock-auth-code-t",
        { client_id := "client-a", redirect_uri := "https://cb", resource := "",
          code_challenge := none })]⟩ : ServerState).issued_tokens ∧
    ({ client_id := "client-a", redirect_uri := "https://cb", resource := "",
       code_challenge := none } : IssuedGrant).resource = "" := by
  refine ⟨Relation.ReflTransGen.single
    (Step.authorize ⟨some "client-a", some "https://cb", some "xyz", "code",
      none, none, some ""⟩ "t" initState), ?_, rfl⟩
  simp

/-- C3 amended: the Authorization Endpoint never mints a grant when the
`resource` parameter is absent, and every grant it adds to the store records
exactly the supplied `resource` string (which may be empty). -/
theorem authorize_resource_required_amended (p : AuthorizeParams) (tok : String)
    (l : List (String × IssuedGrant)) :
    (p.resource = none → authorize p tok l = (AuthorizeResponse.validationError 422, l)) ∧
    (∀ q ∈ (authorize p tok l).2, q ∈ l ∨ ∃ r, p.resource = some r ∧ q.2.resource = r) := by
  constructor
  · exact authorize_resource_none_eq p tok l
  · intro q hq
    rcases p with ⟨ci, ru, stt, rt, cc, ccm, res⟩
    cases ci <;> cases ru <;> cases stt <;> cases res <;>
      first
      | exact Or.inl hq
      | · rw [authorize_all_present_eq] at hq
          rcases mem_dictInsert _ _ _ _ hq with h' | h'
          · exact Or.inr ⟨_, rfl, by rw [h']⟩
          · exact Or.inl h'

theorem authorize_resource_required_amended_witness :
    authorize ⟨some "client-a", some "https://cb", some "xyz", "code", none, none, none⟩
        "t" [] = (AuthorizeResponse.validationError 422, []) ∧
    (("mock-auth-code-t",
      ({ client_id := "client-a", redirect_uri := "https://cb", resource := "https://api",
         code_challenge := none } : IssuedGrant)) ∈ ([] : List (String × IssuedGrant)) ∨
      ∃ r, (some "https://api" : Option String) = some r ∧
        ({ client_id := "client-a", redirect_uri := "https://cb", resource := "https://api",
           code_challenge := none } : IssuedGrant).resource = r) := by
  constructor
  · exact (authorize_resource_required_amended
      ⟨some "client-a", some "https://cb", some "xyz", "code", none, none, none⟩ "t" []).1 rfl
  · exact (authorize_resource_required_amended
      ⟨some "client-a", some "https://cb", some "xyz", "code", none, none, some "https://api"⟩
      "t" []).2 _ (by simp [authorize_all_present_eq, dictInsert])

/-- C4: when `client_id`, `redirect_uri`, `state` and `resource` are all
supplied (whether or not `client_id` is registered) and the minted code is
fresh, exactly one new grant recording the supplied values is appended to
the grant store under that code, and the response is an HTTP 302 redirect
to the supplied `redirect_uri` with `code` and the original `state` as
url-encoded query parameters. -/
theorem authorize_success_mints_one_grant (a b s resource rt : String)
    (cc ccm : Option String) (tok : String) (l : List (String × IssuedGrant))
    (hfresh : dictLookup ("mock-auth-code-" ++ tok) l = none) :
    authorize ⟨some a, some b, some s, rt, cc, ccm, some resource⟩ tok l =
      (AuthorizeResponse.redirect 302
        (b ++ "?" ++ urlencode [("code", "mock-auth-code-" ++ tok), ("state", s)]),
       l ++ [("mock-auth-code-" ++ tok,
         { client_id := a, redirect_uri := b, resource := resource,
           code_challenge := cc })]) ∧
    ((authorize ⟨some a, some b, some s, rt, cc, ccm, some resource⟩ tok l).2).length =
      l.length + 1 := by
  have hmem : "mock-auth-code-" ++ tok ∉ keys l := (dictLookup_eq_none_iff _ _).mp hfresh
  have happ := dictInsert_of_not_mem ("mock-auth-code-" ++ tok)
    ({ client_id := a, redirect_uri := b, resource := resource, code_challenge := cc } :
      IssuedGrant) l hmem
  constructor
  · rw [authorize_all_present_eq, happ]
  · rw [authorize_all_present_eq]
    simp [happ]

theorem authorize_success_mints_one_grant_witness :
    authorize ⟨some "client-a", some "https://cb", some "xyz", "code", none, none,
        some "https://api"⟩ "t" [] =
      (AuthorizeResponse.redirect 302
        ("https://cb" ++ "?" ++
          urlencode [("code", "mock-auth-code-" ++ "t"), ("state", "xyz")]),
       [] ++ [("mock-auth-code-" ++ "t",
         { client_id := "client-a", redirect_uri := "https://cb", resource := "https://api",
           code_challenge := none })]) ∧
    ((authorize ⟨some "client-a", some "https://cb", some "xyz", "code", none, none,
        some "https://api"⟩ "t" []).2).length = ([] : List (String × IssuedGrant)).length + 1 :=
  authorize_success_mints_one_grant "client-a" "https://cb" "xyz" "https://api" "code"
    none none "t" [] rfl

/-- C5: for every configured base URL, the `authorization_servers` list of
the protected-resource metadata is exactly the one-element list holding the
`issuer` of the authorization-server metadata, and both equal the base URL. -/
theorem metadata_round_trip (base_url : String) :
    (protected_resource_metadata base_url).authorization_servers =
      [(authorization_server_metadata base_url).issuer] ∧
    (authorization_server_metadata base_url).issuer = base_url ∧
    (protected_resource_metadata base_url).authorization_servers = [base_url] :=
  ⟨rfl, rfl, rfl⟩

/-- C9: a registration request whose body lacks `client_name` does not fail:
a client is created, stored and returned, with `client_name` defaulting to
the string `"unknown"`. -/
theorem register_client_default_name (body : RegisterBody) (tok1 tok2 : String)
    (reg : List (String × RegisteredClient)) (h : body.client_name = none) :
    (register_client body tok1 tok2 reg).1.client_name = "unknown" ∧
    (register_client body tok1 tok2 reg).2 =
      dictInsert ("mock-client-" ++ tok1) (register_client body tok1 tok2 reg).1 reg := by
  rcases body with ⟨cn, ru⟩
  cases h
  exact ⟨rfl, rfl⟩

theorem register_client_default_name_witness :
    (register_client ⟨none, none⟩ "t1" "t2" []).1.client_name = "unknown" ∧
    (register_client ⟨none, none⟩ "t1" "t2" []).2 =
      dictInsert ("mock-client-" ++ "t1") (register_client ⟨none, none⟩ "t1" "t2" []).1 [] :=
  register_client_default_name ⟨none, none⟩ "t1" "t2" [] rfl

/-- C1: at any reachable state, redeeming a code that is present in the
grant store with `grant_type = "authorization_code"` succeeds with a fresh
token set and removes the code; redeeming the same code a second time fails
with HTTP 400 `"Invalid authorization code"`, mints no token set, and
leaves the grant store unchanged. -/
theorem authorization_code_single_use (st : ServerState) (hst : Reachable st)
    (c : String) (hc : c ∈ keys st.issued_tokens) (atk rtk atk2 rtk2 : String) :
    token ⟨some "authorization_code", some c⟩ atk rtk st.issued_tokens =
      (TokenResponse.ok
        { access_token := "mock-access-token-" ++ atk, token_type := "Bearer",
          expires_in := 3600, refresh_token := "mock-refresh-token-" ++ rtk },
        dictPop c st.issued_tokens) ∧
    c ∉ keys (dictPop c st.issued_tokens) ∧
    token ⟨some "authorization_code", some c⟩ atk2 rtk2 (dictPop c st.issued_tokens) =
      (TokenResponse.httpError 400 "Invalid authorization code",
        dictPop c st.issued_tokens) := by
  obtain ⟨hnd, hpref⟩ := reachable_inv st hst
  obtain ⟨p, hp, hpc⟩ :=
    List.mem_map.mp (show c ∈ List.map Prod.fst st.issued_tokens from hc)
  have hcpref : startswith c "mock-auth-code-" = true := by rw [← hpc]; exact hpref p hp
  have hcne : c ≠ "" := startswith_marker_ne_empty hcpref
  have hsome : (dictLookup c st.issued_tokens).isSome = true :=
    (dictLookup_isSome_iff _ _).mpr hc
  have hnot : c ∉ keys (dictPop c st.issued_tokens) := not_mem_keys_dictPop _ _ hnd
  have hnone : dictLookup c (dictPop c st.issued_tokens) = none :=
    (dictLookup_eq_none_iff _ _).mpr hnot
  refine ⟨?_, hnot, ?_⟩
  · rw [token_auth_code_eq, if_pos ⟨hcne, hsome⟩]
  · rw [token_auth_code_eq, if_neg]
    intro hand
    rw [hnone] at hand
    exact absurd hand.2 (by simp)

theorem authorization_code_single_use_witness :
    token ⟨some "authorization_code", some "mock-auth-code-t"⟩ "a" "r"
        [("mock-auth-code-t",
          { client_id := "client-a", redirect_uri := "https://cb", resource := "https://api",
            code_challenge := none })] =
      (TokenResponse.ok
        { access_token := "mock-access-token-" ++ "a", token_type := "Bearer",
          expires_in := 3600, refresh_token := "mock-refresh-token-" ++ "r" },
        dictPop "mock-auth-code-t"
          [("mock-auth-code-t",
            { client_id := "client-a", redirect_uri := "https://cb", resource := "https://api",
              code_challenge := none })]) ∧
    "mock-auth-code-t" ∉ keys (dictPop "mock-auth-code-t"
      ([("mock-auth-code-t",
        { client_id := "client-a", redirect_uri := "https://cb", resource := "https://api",
          code_challenge := none })] : List (String × IssuedGrant))) ∧
    token ⟨some "authorization_code", some "mock-auth-code-t"⟩ "a2" "r2"
        (dictPop "mock-auth-code-t"
          [("mock-auth-code-t",
            { client_id := "client-a", redirect_uri := "https://cb", resource := "https://api",
              code_challenge := none })]) =
      (TokenResponse.httpError 400 "Invalid authorization code",
        dictPop "mock-auth-code-t"
          [("mock-auth-code-t",
            { client_id := "client-a", redirect_uri := "https://cb", resource := "https://api",
              code_challenge := none })]) :=
  authorization_code_single_use
    (⟨[], [("mock-auth-code-t",
      { client_id := "client-a", redirect_uri := "https://cb", resource := "https://api",
        code_challenge := none })]⟩ : ServerState)
    (Relation.ReflTransGen.single
      (Step.authorize ⟨some "client-a", some "https://cb", some "xyz", "code",
        none, none, some "https://api"⟩ "t" initState))
    "mock-auth-code-t" (by simp [keys]) "a" "r" "a2" "r2"

/-- C6: every successful `/token` response — under either grant type — is a
token set whose `token_type` is `"Bearer"`, whose `expires_in` is 3600 and
whose access and refresh tokens are the freshly generated ones; the
`refresh_token` grant succeeds unconditionally, with the grant store passed
through untouched (no lookup). -/
theorem token_success_shape :
    (∀ (form : TokenForm) (atk rtk : String) (l l2 : List (String × IssuedGrant))
      (ts : TokenSet), token form atk rtk l = (TokenResponse.ok ts, l2) →
        ts = { access_token := "mock-access-token-" ++ atk, token_type := "Bearer",
               expires_in := 3600, refresh_token := "mock-refresh-token-" ++ rtk }) ∧
    (∀ (code : Option String) (atk rtk : String) (l : List (String × IssuedGrant)),
      token ⟨some "refresh_token", code⟩ atk rtk l =
        (TokenResponse.ok
          { access_token := "mock-access-token-" ++ atk, token_type := "Bearer",
            expires_in := 3600, refresh_token := "mock-refresh-token-" ++ rtk }, l)) := by
  constructor
  · intro form atk rtk l l2 ts h
    rcases form with ⟨gt, code⟩
    simp only [token] at h
    repeat' split at h
    all_goals
      first
      | (exfalso; exact TokenResponse.noConfusion (congrArg Prod.fst h))
      | exact (TokenResponse.ok.inj (congrArg Prod.fst h)).symm
  · intro code atk rtk l
    exact token_refresh_eq code atk rtk l

theorem token_success_shape_witness :
    token ⟨some "refresh_token", none⟩ "a" "r" [] =
      (TokenResponse.ok
        { access_token := "mock-access-token-" ++ "a", token_type := "Bearer",
          expires_in := 3600, refresh_token := "mock-refresh-token-" ++ "r" }, []) ∧
    ({ access_token := "mock-access-token-a", token_type := "Bearer",
       expires_in := 3600, refresh_token := "mock-refresh-token-r" } : TokenSet) =
      { access_token := "mock-access-token-" ++ "a", token_type := "Bearer",
        expires_in := 3600, refresh_token := "mock-refresh-token-" ++ "r" } := by
  constructor
  · exact token_success_shape.2 none "a" "r" []
  · exact token_success_shape.1 ⟨some "authorization_code", some "c"⟩ "a" "r"
      [("c", { client_id := "x", redirect_uri := "y", resource := "z",
               code_challenge := none })] [] _
      (by decide)

/-- C7: a `/mcp` request whose `Authorization` header is absent (mapped to
`""` by `headers.get`) or not bearer-shaped receives HTTP 401 with body
fields `error = "unauthorized"`, `message = "Authentication required"` and a
`WWW-Authenticate` challenge containing `resource_metadata` pointing at the
protected-resource metadata URL; a bearer-shaped header receives the fixed
200 capability payload, independent of the token presented. -/
theorem mcp_endpoint_auth_gate (base_url : String) (h : Option String) :
    (startswith (h.getD "") "Bearer " = false →
      mcp_endpoint base_url h =
        McpResponse.unauthorized 401 "unauthorized" "Authentication required"
          (bearerChallenge base_url)) ∧
    (startswith (h.getD "") "Bearer " = true →
      mcp_endpoint base_url h =
        McpResponse.success 200 "2.0" 1 "2024-11-05" "runlayer-mock" "1.0.0") ∧
    bearerChallenge base_url =
      "Bearer error=\"invalid_token\", " ++
        ("resource_metadata=\"" ++ base_url ++ "/.well-known/oauth-protected-resource\"") := by
  refine ⟨?_, ?_, ?_⟩
  · intro hb
    simp [mcp_endpoint, hb]
  · intro hb
    simp [mcp_endpoint, hb]
  · have hlit : ("Bearer error=\"invalid_token\", " : String) ++ "resource_metadata=\"" =
        "Bearer error=\"invalid_token\", resource_metadata=\"" := by decide
    simp only [bearerChallenge]
    rw [← String.append_assoc, ← String.append_assoc, hlit]

theorem mcp_endpoint_auth_gate_witness :
    mcp_endpoint "http://localhost:8000" none =
      McpResponse.unauthorized 401 "unauthorized" "Authentication required"
        (bearerChallenge "http://localhost:8000") ∧
    mcp_endpoint "http://localhost:8000" (some "Bearer abc") =
      McpResponse.success 200 "2.0" 1 "2024-11-05" "runlayer-mock" "1.0.0" := by
  constructor
  · exact (mcp_endpoint_auth_gate "http://localhost:8000" none).1 (by decide)
  · exact (mcp_endpoint_auth_gate "http://localhost:8000" (some "Bearer abc")).2.1 (by decide)

/-- C8: two successive registrations whose random tokens are distinct (and
fresh for the registry) return distinct `client_id`s — even for identical
bodies — and each call appends exactly one new entry whose stored record
equals the returned one, secret included. -/
theorem register_client_distinct_ids (b1 b2 : RegisterBody) (t1 t2 t3 t4 : String)
    (reg : List (String × RegisteredClient)) (hne : t1 ≠ t3)
    (h1 : dictLookup ("mock-client-" ++ t1) reg = none)
    (h2 : dictLookup ("mock-client-" ++ t3) (register_client b1 t1 t2 reg).2 = none) :
    (register_client b1 t1 t2 reg).1.client_id ≠
      (register_client b2 t3 t4 (register_client b1 t1 t2 reg).2).1.client_id ∧
    (register_client b1 t1 t2 reg).2 =
      reg ++ [("mock-client-" ++ t1, (register_client b1 t1 t2 reg).1)] ∧
    (register_client b2 t3 t4 (register_client b1 t1 t2 reg).2).2 =
      (register_client b1 t1 t2 reg).2 ++
        [("mock-client-" ++ t3, (register_client b2 t3 t4 (register_client b1 t1 t2 reg).2).1)] := by
  refine ⟨?_, ?_, ?_⟩
  · intro heq
    have heq' : "mock-client-" ++ t1 = "mock-client-" ++ t3 := heq
    exact hne (append_left_cancel_str heq')
  · exact dictInsert_of_not_mem _ _ _ ((dictLookup_eq_none_iff _ _).mp h1)
  · exact dictInsert_of_not_mem _ _ _ ((dictLookup_eq_none_iff _ _).mp h2)

theorem register_client_distinct_ids_witness :
    (register_client ⟨some "acme", none⟩ "t1" "s1" []).1.client_id ≠
      (register_client ⟨some "acme", none⟩ "t3" "s4"
        (register_client ⟨some "acme", none⟩ "t1" "s1" []).2).1.client_id ∧
    (register_client ⟨some "acme", none⟩ "t1" "s1" []).2 =
      [] ++ [("mock-client-" ++ "t1", (register_client ⟨some "acme", none⟩ "t1" "s1" []).1)] ∧
    (register_client ⟨some "acme", none⟩ "t3" "s4"
        (register_client ⟨some "acme", none⟩ "t1" "s1" []).2).2 =
      (register_client ⟨some "acme", none⟩ "t1" "s1" []).2 ++
        [("mock-client-" ++ "t3", (register_client ⟨some "acme", none⟩ "t3" "s4"
          (register_client ⟨some "acme", none⟩ "t1" "s1" []).2).1)] :=
  register_client_distinct_ids ⟨some "acme", none⟩ ⟨some "acme", none⟩ "t1" "s1" "t3" "s4"
    [] (by decide) rfl (by decide)

/-- C10: the `/mcp` bearer check is an exact, case-sensitive prefix match on
`"Bearer "`: a presented header yields the fixed 200 payload exactly when it
starts with that seven-character prefix; `"bearer x"`, `"Bearer"` (no
trailing space) and `"BEARER x"` receive the 401 challenge while
`"Bearer "` (empty token) and `"Bearer !!notatoken??"` receive the 200
payload. -/
theorem mcp_bearer_check_exact (base_url v : String) :
    (mcp_endpoint base_url (some v) =
        McpResponse.success 200 "2.0" 1 "2024-11-05" "runlayer-mock" "1.0.0" ↔
      startswith v "Bearer " = true) ∧
    mcp_endpoint base_url (some "bearer x") =
      McpResponse.unauthorized 401 "unauthorized" "Authentication required"
        (bearerChallenge base_url) ∧
    mcp_endpoint base_url (some "Bearer") =
      McpResponse.unauthorized 401 "unauthorized" "Authentication required"
        (bearerChallenge base_url) ∧
    mcp_endpoint base_url (some "BEARER x") =
      McpResponse.unauthorized 401 "unauthorized" "Authentication required"
        (bearerChallenge base_url) ∧
    mcp_endpoint base_url (some "Bearer ") =
      McpResponse.success 200 "2.0" 1 "2024-11-05" "runlayer-mock" "1.0.0" ∧
    mcp_endpoint base_url (some "Bearer !!notatoken??") =
      McpResponse.success 200 "2.0" 1 "2024-11-05" "runlayer-mock" "1.0.0" := by
  have hcase : ∀ w : String, startswith w "Bearer " = false →
      mcp_endpoint base_url (some w) =
        McpResponse.unauthorized 401 "unauthorized" "Authentication required"
          (bearerChallenge base_url) := by
    intro w hw
    simp [mcp_endpoint, hw]
  have hok : ∀ w : String, startswith w "Bearer " = true →
      mcp_endpoint base_url (some w) =
        McpResponse.success 200 "2.0" 1 "2024-11-05" "runlayer-mock" "1.0.0" := by
    intro w hw
    simp [mcp_endpoint, hw]
  refine ⟨⟨?_, hok v⟩, hcase _ (by decide), hcase _ (by decide), hcase _ (by decide),
    hok _ (by decide), hok _ (by decide)⟩
  intro hv
  by_cases hw : startswith v "Bearer " = true
  · exact hw
  · rw [hcase v (by simpa using hw)] at hv
    exact absurd hv (by simp)

end OAuthMock
